import Mathlib

/-!
Shallow embedding of `src/lib/session-manager.ts` (class `SessionManager`)
and the session types from `src/types/session.ts`.

Modelling conventions:
* TypeScript `number` fields that take part in arithmetic (latencies, byte
  counts, packet-loss counts) are embedded as `ℚ`; counters that only ever
  grow by one (`packetsReceived`, `reconnectCount`) are `Nat`.
* `Date` values are wall-clock timestamps in milliseconds, embedded as `Nat`
  and supplied explicitly as a `now` argument to each operation that calls
  `new Date()`.
* Timer handles (`heartbeatInterval`, `reconnectTimeout`) are embedded as
  Booleans recording whether the handle is set.  The local `timeoutCheck`
  interval of `startConnectionMonitoring` is never stored on the instance
  and therefore has no state component.
* Thrown errors are returned as an `Option SMError` alongside the state at
  the moment of the throw (JavaScript exceptions do not roll back mutations).
* `statusLog` is a ghost field recording every assignment to
  `sessionState.status`, in order, so that transient statuses such as
  `connecting` are observable.
-/

namespace SessionManager

/-- The `SessionStatus` union type of `src/types/session.ts`. -/
inductive SessionStatus
  | initializing
  | connecting
  | connected
  | active
  | paused
  | reconnecting
  | disconnecting
  | disconnected
  | error
  | expired
deriving DecidableEq, Repr

/-- The `ConnectionQuality` union type of `src/types/session.ts`. -/
inductive ConnectionQuality
  | excellent
  | good
  | fair
  | poor
  | unknown
deriving DecidableEq, Repr

/-- The `SessionConfiguration` interface of `src/types/session.ts`. -/
structure SessionConfiguration where
  agentId : String
  apiUrl : Option String
  maxDuration : Option Nat
  reconnectAttempts : Nat
  reconnectDelay : Nat
  heartbeatInterval : Nat
  timeoutDuration : Nat
  enableLogging : Bool
deriving DecidableEq, Repr

/-- The `SessionState` interface of `src/types/session.ts` (the optional
`metadata` record is never written by the manager and is omitted). -/
structure SessionState where
  id : Option String
  status : SessionStatus
  startTime : Option Nat
  endTime : Option Nat
  duration : Int
  connectionQuality : ConnectionQuality
  reconnectCount : Nat
  lastHeartbeat : Option Nat
deriving DecidableEq, Repr

/-- The `SessionMetrics` interface of `src/types/session.ts`. -/
structure SessionMetrics where
  latency : ℚ
  packetsLost : ℚ
  packetsReceived : Nat
  bytesTransferred : ℚ
  averageLatency : ℚ
  connectionUptime : Int
deriving DecidableEq, Repr

/-- The errors thrown by `SessionManager` methods. -/
inductive SMError
  /-- `new Error('Session not initialized')` in `connectSession`. -/
  | notInitialized
  /-- `new Error('Maximum reconnection attempts exceeded')` in `reconnect`. -/
  | maxReconnectAttemptsExceeded
  /-- `new Error('Failed to reconnect after maximum attempts')` in `reconnect`. -/
  | reconnectFailed
deriving DecidableEq, Repr

/-- The private fields of the `SessionManager` class, plus the ghost
`statusLog`. -/
structure Manager where
  sessionState : SessionState
  configuration : SessionConfiguration
  heartbeatActive : Bool
  reconnectTimeoutActive : Bool
  audioStreamPresent : Bool
  callbacksPresent : Bool
  metrics : SessionMetrics
  latencyMeasurements : List ℚ
  statusLog : List SessionStatus
deriving DecidableEq, Repr

/-- The field initializer of `sessionState` in the class declaration. -/
def initialSessionState : SessionState :=
  { id := none
    status := .disconnected
    startTime := none
    endTime := none
    duration := 0
    connectionQuality := .unknown
    reconnectCount := 0
    lastHeartbeat := none }

/-- The field initializer of `metrics` in the class declaration, which is
also the value installed by `resetMetrics`. -/
def initialMetrics : SessionMetrics :=
  { latency := 0
    packetsLost := 0
    packetsReceived := 0
    bytesTransferred := 0
    averageLatency := 0
    connectionUptime := 0 }

/-- `new SessionManager(config)`. -/
def mkManager (config : SessionConfiguration) : Manager :=
  { sessionState := initialSessionState
    configuration := config
    heartbeatActive := false
    reconnectTimeoutActive := false
    audioStreamPresent := false
    callbacksPresent := false
    metrics := initialMetrics
    latencyMeasurements := []
    statusLog := [] }

/-- Private `updateStatus`: assigns the status (the ghost log records the
assignment; the change-notification callback carries no state). -/
def updateStatus (m : Manager) (status : SessionStatus) : Manager :=
  { m with
    sessionState := { m.sessionState with status := status }
    statusLog := m.statusLog ++ [status] }

/-- Private `updateConnectionQuality`. -/
def updateConnectionQuality (m : Manager) (quality : ConnectionQuality) : Manager :=
  { m with sessionState := { m.sessionState with connectionQuality := quality } }

/-- The `packetLossRate` computation inside
`updateConnectionQualityFromMetrics`:
`packetsReceived > 0 ? packetsLost / packetsReceived : 0`. -/
def packetLossRate (ms : SessionMetrics) : ℚ :=
  if 0 < ms.packetsReceived then ms.packetsLost / (ms.packetsReceived : ℚ) else 0

/-- The quality ladder of `updateConnectionQualityFromMetrics`. -/
def classifyQuality (ms : SessionMetrics) : ConnectionQuality :=
  if ms.latency < 100 ∧ packetLossRate ms < 1/100 then .excellent
  else if ms.latency < 200 ∧ packetLossRate ms < 2/100 then .good
  else if ms.latency < 400 ∧ packetLossRate ms < 5/100 then .fair
  else .poor

/-- Private `updateConnectionQualityFromMetrics`. -/
def updateConnectionQualityFromMetrics (m : Manager) : Manager :=
  updateConnectionQuality m (classifyQuality m.metrics)

/-- Private `calculateDuration`, evaluated at wall-clock time `now`:
returns `0` with no `startTime`, otherwise `(endTime ?? now) - startTime`. -/
def calculateDuration (s : SessionState) (now : Nat) : Int :=
  match s.startTime with
  | none => 0
  | some st => ((s.endTime.getD now : Nat) : Int) - (st : Int)

/-- Private `resetMetrics`. -/
def resetMetrics (m : Manager) : Manager :=
  { m with metrics := initialMetrics, latencyMeasurements := [] }

/-- Private `startHeartbeat` (installs the heartbeat interval handle). -/
def startHeartbeat (m : Manager) : Manager :=
  { m with heartbeatActive := true }

/-- Private `stopHeartbeat`. -/
def stopHeartbeat (m : Manager) : Manager :=
  { m with heartbeatActive := false }

/-- Private `stopConnectionMonitoring` (clears the `reconnectTimeout`
handle; the local `timeoutCheck` interval is not a field). -/
def stopConnectionMonitoring (m : Manager) : Manager :=
  { m with reconnectTimeoutActive := false }

/-- One firing of the heartbeat interval callback installed by
`startHeartbeat`: stamps `lastHeartbeat` and recomputes
`connectionUptime`.  Fires only while the handle is set. -/
def heartbeatTick (m : Manager) (now : Nat) : Manager :=
  if m.heartbeatActive then
    { m with
      sessionState := { m.sessionState with lastHeartbeat := some now }
      metrics := { m.metrics with connectionUptime := calculateDuration m.sessionState now } }
  else m

/-- `initializeSession(sessionId)` at wall-clock time `now`. -/
def initializeSession (m : Manager) (sessionId : String) (now : Nat) : Manager :=
  let m1 : Manager :=
    { m with
      sessionState :=
        { m.sessionState with
          id := some sessionId
          status := .initializing
          startTime := some now
          endTime := none
          duration := 0
          reconnectCount := 0
          lastHeartbeat := some now }
      statusLog := m.statusLog ++ [.initializing] }
  resetMetrics (startHeartbeat m1)

/-- The JavaScript truthiness test `!this.sessionState.id`: true for `null`
and for the empty string. -/
def idFalsy : Option String → Bool
  | none => true
  | some s => s.isEmpty

/-- `connectSession()`.  Throws `notInitialized` when the id is falsy;
otherwise sets status `connecting` then `connected` and quality `good`
(the `timeoutCheck` interval started by `startConnectionMonitoring` is a
local variable, not instance state). -/
def connectSession (m : Manager) : Option SMError × Manager :=
  if idFalsy m.sessionState.id then (some .notInitialized, m)
  else
    let m1 := updateStatus m .connecting
    let m2 := updateConnectionQuality (updateStatus m1 .connected) .good
    (none, m2)

/-- `disconnectSession(reason?)` at wall-clock time `now`.  The final
object literal computes `duration` via `calculateDuration` before
`sessionState` is reassigned, so the old `endTime` is still in effect. -/
def disconnectSession (m : Manager) (now : Nat) : Manager :=
  let m1 := updateStatus m .disconnecting
  let m2 := stopConnectionMonitoring (stopHeartbeat m1)
  { m2 with
    sessionState :=
      { m2.sessionState with
        status := .disconnected
        endTime := some now
        duration := calculateDuration m2.sessionState now }
    statusLog := m2.statusLog ++ [.disconnected] }

/-- `reconnect()`.  Throws `maxReconnectAttemptsExceeded` at the ceiling;
otherwise increments the counter, sets `reconnecting`, and attempts
`connectSession`.  On failure it either schedules a retry (the
`reconnectTimeout` handle) or, at the ceiling, sets `error` and throws. -/
def reconnect (m : Manager) : Option SMError × Manager :=
  if m.configuration.reconnectAttempts ≤ m.sessionState.reconnectCount then
    (some .maxReconnectAttemptsExceeded, m)
  else
    let m1 : Manager :=
      { m with sessionState :=
          { m.sessionState with reconnectCount := m.sessionState.reconnectCount + 1 } }
    let m2 := updateStatus m1 .reconnecting
    match connectSession m2 with
    | (none, m3) => (none, m3)
    | (some _, m3) =>
      if m3.sessionState.reconnectCount < m3.configuration.reconnectAttempts then
        (none, { m3 with reconnectTimeoutActive := true })
      else
        (some .reconnectFailed, updateStatus m3 .error)

/-- `pauseSession()`. -/
def pauseSession (m : Manager) : Manager :=
  if m.sessionState.status = .connected ∨ m.sessionState.status = .active then
    updateStatus m .paused
  else m

/-- `resumeSession()`. -/
def resumeSession (m : Manager) : Manager :=
  if m.sessionState.status = .paused then updateStatus m .active else m

/-- `updateLatency(latency)`: records the instantaneous latency, pushes it
onto the window, drops the oldest sample past 100, recomputes the average
with `reduce`, and re-derives the connection quality. -/
def updateLatency (m : Manager) (latency : ℚ) : Manager :=
  let m1 : Manager :=
    { m with
      metrics := { m.metrics with latency := latency }
      latencyMeasurements := m.latencyMeasurements ++ [latency] }
  let m2 : Manager :=
    if 100 < m1.latencyMeasurements.length then
      { m1 with latencyMeasurements := m1.latencyMeasurements.tail }
    else m1
  let m3 : Manager :=
    { m2 with
      metrics := { m2.metrics with
        averageLatency :=
          (m2.latencyMeasurements.foldl (· + ·) 0) / (m2.latencyMeasurements.length : ℚ) } }
  updateConnectionQualityFromMetrics m3

/-- `updateBytesTransferred(bytes)`. -/
def updateBytesTransferred (m : Manager) (bytes : ℚ) : Manager :=
  { m with
    metrics := { m.metrics with
      bytesTransferred := m.metrics.bytesTransferred + bytes
      packetsReceived := m.metrics.packetsReceived + 1 } }

/-- `reportPacketLoss(packetsLost)`. -/
def reportPacketLoss (m : Manager) (packetsLost : ℚ) : Manager :=
  updateConnectionQualityFromMetrics
    { m with
      metrics := { m.metrics with packetsLost := m.metrics.packetsLost + packetsLost } }

/-- `isActive()`. -/
def isActive (m : Manager) : Bool :=
  [SessionStatus.connected, SessionStatus.active, SessionStatus.paused].contains
    m.sessionState.status

/-- `setAudioStream(stream)`. -/
def setAudioStream (m : Manager) : Manager :=
  { m with audioStreamPresent := true }

/-- `setCallbacks(callbacks)`. -/
def setCallbacks (m : Manager) : Manager :=
  { m with callbacksPresent := true }

/-- `destroy()`: stops both timers, stops and releases the audio stream,
and clears the callback registrations. -/
def destroy (m : Manager) : Manager :=
  let m1 := stopConnectionMonitoring (stopHeartbeat m)
  { m1 with audioStreamPresent := false, callbacksPresent := false }

/-- One public operation on the manager (timer firings included). -/
inductive Op
  | initializeOp (sessionId : String) (now : Nat)
  | connectOp
  | disconnectOp (now : Nat)
  | reconnectOp
  | pauseOp
  | resumeOp
  | updateLatencyOp (latency : ℚ)
  | updateBytesOp (bytes : ℚ)
  | packetLossOp (packetsLost : ℚ)
  | heartbeatOp (now : Nat)
  | setStreamOp
  | setCallbacksOp
  | destroyOp
deriving DecidableEq, Repr

/-- The state reached after one operation (for throwing operations, the
state at the moment of the throw). -/
def applyOp (m : Manager) : Op → Manager
  | .initializeOp sid now => initializeSession m sid now
  | .connectOp => (connectSession m).2
  | .disconnectOp now => disconnectSession m now
  | .reconnectOp => (reconnect m).2
  | .pauseOp => pauseSession m
  | .resumeOp => resumeSession m
  | .updateLatencyOp x => updateLatency m x
  | .updateBytesOp b => updateBytesTransferred m b
  | .packetLossOp n => reportPacketLoss m n
  | .heartbeatOp now => heartbeatTick m now
  | .setStreamOp => setAudioStream m
  | .setCallbacksOp => setCallbacks m
  | .destroyOp => destroy m

/-- Running a sequence of public operations. -/
def runOps (m : Manager) (ops : List Op) : Manager :=
  ops.foldl applyOp m

/-- The sliding window retained from a full history `ls` of latency
samples: the most recent `min ls.length 100` entries. -/
def latencyWindow (ls : List ℚ) : List ℚ :=
  ls.drop (ls.length - 100)

/-- A fixed concrete configuration used for concrete executions. -/
def cfg0 : SessionConfiguration :=
  { agentId := "agent"
    apiUrl := none
    maxDuration := none
    reconnectAttempts := 3
    reconnectDelay := 1000
    heartbeatInterval := 30000
    timeoutDuration := 60000
    enableLogging := false }

/-- The concrete configuration with a reconnection ceiling of zero. -/
def cfgNoRetry : SessionConfiguration :=
  { cfg0 with reconnectAttempts := 0 }

/-- Whether an operation is an `initializeSession` call. -/
def isInitOp : Op → Bool
  | .initializeOp _ _ => true
  | _ => false

/-!
### Helper lemmas

Field-preservation facts shared by several of the claim theorems below.
-/

theorem connectSession_preserves (m : Manager) :
    (connectSession m).2.sessionState.id = m.sessionState.id
    ∧ (connectSession m).2.configuration = m.configuration
    ∧ (connectSession m).2.sessionState.reconnectCount = m.sessionState.reconnectCount := by
  unfold connectSession
  split
  · exact ⟨rfl, rfl, rfl⟩
  · exact ⟨rfl, rfl, rfl⟩

theorem reconnect_guard (m : Manager)
    (h : m.configuration.reconnectAttempts ≤ m.sessionState.reconnectCount) :
    reconnect m = (some .maxReconnectAttemptsExceeded, m) := by
  unfold reconnect
  rw [if_pos h]

theorem reconnect_preserves (m : Manager) :
    (reconnect m).2.sessionState.id = m.sessionState.id
    ∧ (reconnect m).2.configuration = m.configuration
    ∧ (reconnect m).2.sessionState.reconnectCount
        = (if m.configuration.reconnectAttempts ≤ m.sessionState.reconnectCount
           then m.sessionState.reconnectCount
           else m.sessionState.reconnectCount + 1) := by
  by_cases hg : m.configuration.reconnectAttempts ≤ m.sessionState.reconnectCount
  · rw [reconnect_guard m hg, if_pos hg]
    exact ⟨rfl, rfl, rfl⟩
  · rw [if_neg hg]
    unfold reconnect
    rw [if_neg hg]
    dsimp only
    have h := connectSession_preserves (updateStatus
      { m with sessionState :=
          { m.sessionState with reconnectCount := m.sessionState.reconnectCount + 1 } }
      .reconnecting)
    split
    next m3 heq =>
      rw [heq] at h
      simpa [updateStatus] using h
    next e m3 heq =>
      rw [heq] at h
      split
      · simpa [updateStatus] using h
      · simpa [updateStatus] using h

theorem applyOp_preserves (m : Manager) (op : Op) :
    (applyOp m op).configuration = m.configuration
    ∧ ((applyOp m op).sessionState.id = none
        ↔ m.sessionState.id = none ∧ isInitOp op = false)
    ∧ (m.sessionState.reconnectCount ≤ m.configuration.reconnectAttempts →
        (applyOp m op).sessionState.reconnectCount ≤ m.configuration.reconnectAttempts) := by
  cases op with
  | initializeOp sid now =>
      simp only [applyOp]
      refine ⟨rfl, ?_, fun _ => ?_⟩
      · simp [initializeSession, resetMetrics, startHeartbeat, isInitOp]
      · simp [initializeSession, resetMetrics, startHeartbeat]
  | connectOp =>
      simp only [applyOp]
      obtain ⟨h1, h2, h3⟩ := connectSession_preserves m
      refine ⟨h2, ?_, fun h => ?_⟩
      · simp [isInitOp, h1]
      · simpa [h3] using h
  | reconnectOp =>
      simp only [applyOp]
      obtain ⟨h1, h2, h3⟩ := reconnect_preserves m
      refine ⟨h2, ?_, fun h => ?_⟩
      · simp [isInitOp, h1]
      · rw [h3]
        split
        · exact h
        · omega
  | disconnectOp now =>
      simp only [applyOp]
      refine ⟨rfl, ?_, fun h => ?_⟩
      · simp [disconnectSession, stopHeartbeat, stopConnectionMonitoring,
          updateStatus, isInitOp]
      · simpa [disconnectSession, stopHeartbeat, stopConnectionMonitoring,
          updateStatus] using h
  | pauseOp =>
      simp only [applyOp]
      refine ⟨?_, ?_, fun h => ?_⟩
      · unfold pauseSession
        split <;> rfl
      · unfold pauseSession
        split <;> simp [updateStatus, isInitOp]
      · unfold pauseSession
        split <;> simpa [updateStatus]
  | resumeOp =>
      simp only [applyOp]
      refine ⟨?_, ?_, fun h => ?_⟩
      · unfold resumeSession
        split <;> rfl
      · unfold resumeSession
        split <;> simp [updateStatus, isInitOp]
      · unfold resumeSession
        split <;> simpa [updateStatus]
  | updateLatencyOp x =>
      simp only [applyOp]
      refine ⟨?_, ?_, fun h => ?_⟩
      · simp [updateLatency, updateConnectionQualityFromMetrics,
          updateConnectionQuality, apply_ite]
      · simp [updateLatency, updateConnectionQualityFromMetrics,
          updateConnectionQuality, apply_ite, isInitOp]
      · simpa [updateLatency, updateConnectionQualityFromMetrics,
          updateConnectionQuality, apply_ite] using h
  | updateBytesOp b =>
      simp only [applyOp]
      refine ⟨rfl, ?_, fun h => ?_⟩
      · simp [updateBytesTransferred, isInitOp]
      · simpa [updateBytesTransferred] using h
  | packetLossOp n =>
      simp only [applyOp]
      refine ⟨rfl, ?_, fun h => ?_⟩
      · simp [reportPacketLoss, updateConnectionQualityFromMetrics,
          updateConnectionQuality, isInitOp]
      · simpa [reportPacketLoss, updateConnectionQualityFromMetrics,
          updateConnectionQuality] using h
  | heartbeatOp now =>
      simp only [applyOp]
      refine ⟨?_, ?_, fun h => ?_⟩
      · unfold heartbeatTick
        split <;> rfl
      · unfold heartbeatTick
        split <;> simp [isInitOp]
      · unfold heartbeatTick
        split <;> simpa
  | setStreamOp =>
      simp only [applyOp]
      exact ⟨rfl, by simp [setAudioStream, isInitOp], fun h => h⟩
  | setCallbacksOp =>
      simp only [applyOp]
      exact ⟨rfl, by simp [setCallbacks, isInitOp], fun h => h⟩
  | destroyOp =>
      simp only [applyOp]
      exact ⟨rfl,
        by simp [destroy, stopHeartbeat, stopConnectionMonitoring, isInitOp],
        fun h => h⟩

theorem runOps_preserves (ops : List Op) (m : Manager) :
    (runOps m ops).configuration = m.configuration
    ∧ ((runOps m ops).sessionState.id = none
        ↔ m.sessionState.id = none ∧ ∀ op ∈ ops, isInitOp op = false)
    ∧ (m.sessionState.reconnectCount ≤ m.configuration.reconnectAttempts →
        (runOps m ops).sessionState.reconnectCount ≤ m.configuration.reconnectAttempts) := by
  induction ops generalizing m with
  | nil => simp [runOps]
  | cons op ops ih =>
      obtain ⟨hc, hid, hrc⟩ := applyOp_preserves m op
      obtain ⟨ihc, ihid, ihrc⟩ := ih (applyOp m op)
      have hrun : runOps m (op :: ops) = runOps (applyOp m op) ops := rfl
      refine ⟨by rw [hrun, ihc, hc], ?_, fun h => ?_⟩
      · rw [hrun, ihid, hid]
        constructor
        · rintro ⟨⟨h1, h2⟩, h3⟩
          exact ⟨h1, by simpa [h2] using h3⟩
        · rintro ⟨h1, h3⟩
          exact ⟨⟨h1, h3 op (by simp)⟩, fun o ho => h3 o (by simp [ho])⟩
      · rw [hrun]
        have := ihrc (by rw [hc]; exact hrc h)
        rwa [hc] at this

/-!
### Claim theorems
-/

/-- C2: connection quality is recomputed on every `updateLatency` and every
`reportPacketLoss` call as a pure deterministic function of the current
metrics, where `lossRate = packetsLost / packetsReceived` when
`packetsReceived > 0` and `0` otherwise, and the classification is
`excellent` iff latency < 100 ∧ lossRate < 0.01, else `good` iff
latency < 200 ∧ lossRate < 0.02, else `fair` iff latency < 400 ∧
lossRate < 0.05, else `poor`. -/
theorem connectionQuality_thresholds :
    (∀ (m : Manager) (x : ℚ),
        (updateLatency m x).sessionState.connectionQuality
          = classifyQuality (updateLatency m x).metrics)
    ∧ (∀ (m : Manager) (n : ℚ),
        (reportPacketLoss m n).sessionState.connectionQuality
          = classifyQuality (reportPacketLoss m n).metrics)
    ∧ (∀ ms : SessionMetrics,
        packetLossRate ms
          = if 0 < ms.packetsReceived then ms.packetsLost / (ms.packetsReceived : ℚ) else 0)
    ∧ (∀ ms : SessionMetrics,
        (classifyQuality ms = .excellent
            ↔ ms.latency < 100 ∧ packetLossRate ms < 1/100)
        ∧ (classifyQuality ms = .good
            ↔ ¬(ms.latency < 100 ∧ packetLossRate ms < 1/100)
              ∧ ms.latency < 200 ∧ packetLossRate ms < 2/100)
        ∧ (classifyQuality ms = .fair
            ↔ ¬(ms.latency < 100 ∧ packetLossRate ms < 1/100)
              ∧ ¬(ms.latency < 200 ∧ packetLossRate ms < 2/100)
              ∧ ms.latency < 400 ∧ packetLossRate ms < 5/100)
        ∧ (classifyQuality ms = .poor
            ↔ ¬(ms.latency < 100 ∧ packetLossRate ms < 1/100)
              ∧ ¬(ms.latency < 200 ∧ packetLossRate ms < 2/100)
              ∧ ¬(ms.latency < 400 ∧ packetLossRate ms < 5/100))) := by
  refine ⟨fun m x => rfl, fun m n => rfl, fun ms => rfl, fun ms => ?_⟩
  unfold classifyQuality
  split_ifs with h1 h2 h3 <;> simp_all

/-- C2 witness: the quality equations instantiated at a concrete call and
at the concrete baseline metrics. -/
theorem connectionQuality_thresholds_witness :
    (updateLatency (mkManager cfg0) 50).sessionState.connectionQuality
        = classifyQuality (updateLatency (mkManager cfg0) 50).metrics
    ∧ (classifyQuality initialMetrics = .excellent
        ↔ initialMetrics.latency < 100 ∧ packetLossRate initialMetrics < 1/100) :=
  ⟨connectionQuality_thresholds.1 (mkManager cfg0) 50,
   (connectionQuality_thresholds.2.2.2 initialMetrics).1⟩

/-- C3: whenever `reconnectCount ≥ reconnectAttempts`, `reconnect()` fails
with the maximum-reconnection-attempts error and leaves the manager state
(in particular `status`) entirely unchanged. -/
theorem reconnect_at_ceiling (m : Manager)
    (h : m.configuration.reconnectAttempts ≤ m.sessionState.reconnectCount) :
    reconnect m = (some SMError.maxReconnectAttemptsExceeded, m) :=
  reconnect_guard m h

/-- C3 witness: a freshly constructed manager with a reconnection ceiling
of zero is already at the ceiling, and `reconnect()` fails there without
mutating the state. -/
theorem reconnect_at_ceiling_witness :
    (mkManager cfgNoRetry).configuration.reconnectAttempts
        ≤ (mkManager cfgNoRetry).sessionState.reconnectCount
    ∧ reconnect (mkManager cfgNoRetry)
        = (some SMError.maxReconnectAttemptsExceeded, mkManager cfgNoRetry) :=
  ⟨Nat.le_refl 0, reconnect_at_ceiling (mkManager cfgNoRetry) (Nat.le_refl 0)⟩

/-- C8: `destroy()` is idempotent (safe to call repeatedly), and after a
`destroy()` every metric-update call (`updateLatency`,
`updateBytesTransferred`, `reportPacketLoss`) completes and leaves both
timer handles cleared — no timer is restarted. -/
theorem destroy_safe (m : Manager) (x b n : ℚ) :
    destroy (destroy m) = destroy m
    ∧ (updateLatency (destroy m) x).heartbeatActive = false
    ∧ (updateLatency (destroy m) x).reconnectTimeoutActive = false
    ∧ (updateBytesTransferred (destroy m) b).heartbeatActive = false
    ∧ (updateBytesTransferred (destroy m) b).reconnectTimeoutActive = false
    ∧ (reportPacketLoss (destroy m) n).heartbeatActive = false
    ∧ (reportPacketLoss (destroy m) n).reconnectTimeoutActive = false := by
  refine ⟨rfl, ?_, ?_, rfl, rfl, rfl, rfl⟩ <;>
    simp [updateLatency, updateConnectionQualityFromMetrics, updateConnectionQuality,
      destroy, stopHeartbeat, stopConnectionMonitoring, apply_ite]

/-- C9: `pauseSession` moves `connected`/`active` to `paused` and changes
nothing otherwise; `resumeSession` moves `paused` to `active` and changes
nothing otherwise; a pause/resume round trip from a connected or active
state lands in a state satisfying `isActive`. -/
theorem pause_resume_toggle (m : Manager) :
    ((m.sessionState.status = .connected ∨ m.sessionState.status = .active) →
        (pauseSession m).sessionState.status = .paused)
    ∧ (¬(m.sessionState.status = .connected ∨ m.sessionState.status = .active) →
        pauseSession m = m)
    ∧ (m.sessionState.status = .paused →
        (resumeSession m).sessionState.status = .active)
    ∧ (m.sessionState.status ≠ .paused → resumeSession m = m)
    ∧ ((m.sessionState.status = .connected ∨ m.sessionState.status = .active) →
        isActive (resumeSession (pauseSession m)) = true) := by
  refine ⟨fun h => ?_, fun h => ?_, fun h => ?_, fun h => ?_, fun h => ?_⟩
  · unfold pauseSession
    rw [if_pos h]
    rfl
  · unfold pauseSession
    rw [if_neg h]
  · unfold resumeSession
    rw [if_pos h]
    rfl
  · unfold resumeSession
    rw [if_neg h]
  · unfold pauseSession
    rw [if_pos h]
    unfold resumeSession
    rw [if_pos (show (updateStatus m .paused).sessionState.status = .paused from rfl)]
    rfl

/-- C9 witness: from the connected state reached by initialize-then-connect,
a pause/resume round trip satisfies `isActive`. -/
theorem pause_resume_toggle_witness :
    ((connectSession (initializeSession (mkManager cfg0) "s1" 0)).2.sessionState.status
          = SessionStatus.connected
      ∨ (connectSession (initializeSession (mkManager cfg0) "s1" 0)).2.sessionState.status
          = SessionStatus.active)
    ∧ isActive (resumeSession (pauseSession
        (connectSession (initializeSession (mkManager cfg0) "s1" 0)).2)) = true :=
  ⟨Or.inl rfl, (pause_resume_toggle _).2.2.2.2 (Or.inl rfl)⟩

/-- C10 (implicit invariant): starting from a freshly constructed manager,
after every sequence of public operations `reconnectCount` never exceeds
the configured `reconnectAttempts` — `reconnect` increments the counter
only under the guard and `initializeSession` resets it to zero. -/
theorem reconnectCount_le_attempts (cfg : SessionConfiguration) (ops : List Op) :
    (runOps (mkManager cfg) ops).sessionState.reconnectCount ≤ cfg.reconnectAttempts := by
  have h := (runOps_preserves ops (mkManager cfg)).2.2 (Nat.zero_le _)
  simpa [mkManager] using h

/-- C5 counterexample: after `initializeSession "s1"` followed by
`disconnectSession`, the status is `disconnected` yet the session id is
still `some "s1"` — `disconnectSession` never clears the id, refuting
"`id` is non-null iff `status` ∉ {`disconnected`, uninitialized}". -/
theorem id_not_cleared_on_disconnect_cex :
    (disconnectSession (initializeSession (mkManager cfg0) "s1" 0) 10).sessionState.status
        = SessionStatus.disconnected
    ∧ (disconnectSession (initializeSession (mkManager cfg0) "s1" 0) 10).sessionState.id
        = some "s1" :=
  ⟨rfl, rfl⟩

/-- C5 amended: in every state reachable from a fresh manager by public
operations, the session id is non-null iff the sequence contains an
`initializeSession` call; the id is set at initialize and never cleared
afterwards (in particular not by disconnect). -/
theorem id_nonnull_iff_initialized (cfg : SessionConfiguration) (ops : List Op) :
    (runOps (mkManager cfg) ops).sessionState.id ≠ none
      ↔ ∃ op ∈ ops, isInitOp op = true := by
  have h := (runOps_preserves ops (mkManager cfg)).2.1
  constructor
  · intro hne
    by_contra hex
    push_neg at hex
    refine hne (h.mpr ⟨rfl, fun op ho => ?_⟩)
    have := hex op ho
    revert this
    cases isInitOp op <;> simp
  · rintro ⟨op, hop, hinit⟩ hidn
    have hfalse := (h.mp hidn).2 op hop
    rw [hinit] at hfalse
    cases hfalse

/-- C5 amended witness: a run containing an initialize call ends with a
non-null session id. -/
theorem id_nonnull_iff_initialized_witness :
    (runOps (mkManager cfg0) [Op.initializeOp "s1" 0]).sessionState.id ≠ none :=
  (id_nonnull_iff_initialized cfg0 [Op.initializeOp "s1" 0]).mpr
    ⟨Op.initializeOp "s1" 0, by simp, rfl⟩

/-- C6 counterexample: drive the previous session's quality to `poor` with
`updateLatency 500`, then `initializeSession "s2"`: the new session still
reports `connectionQuality = poor` instead of the fresh baseline
`unknown` — `initializeSession` does not discard `connectionQuality`. -/
theorem initialize_keeps_quality_cex :
    (initializeSession (updateLatency (mkManager cfg0) 500) "s2" 7).sessionState.connectionQuality
        = ConnectionQuality.poor
    ∧ initialSessionState.connectionQuality = ConnectionQuality.unknown := by
  constructor
  · norm_num [initializeSession, resetMetrics, startHeartbeat, updateLatency, mkManager,
      updateConnectionQualityFromMetrics, updateConnectionQuality, classifyQuality,
      packetLossRate, initialMetrics, initialSessionState]
  · rfl

/-- C6 amended: `initializeSession(sessionId)` never fails, sets
`status = initializing` and `id = sessionId`, resets `startTime`,
`endTime`, `duration`, `reconnectCount`, `lastHeartbeat`, all metrics and
the latency window to the fresh baseline and starts the heartbeat — but it
retains the previous session's `connectionQuality` rather than discarding
it. -/
theorem initialize_resets_baseline (m : Manager) (sid : String) (now : Nat) :
    (initializeSession m sid now).sessionState.id = some sid
    ∧ (initializeSession m sid now).sessionState.status = SessionStatus.initializing
    ∧ (initializeSession m sid now).sessionState.startTime = some now
    ∧ (initializeSession m sid now).sessionState.endTime = none
    ∧ (initializeSession m sid now).sessionState.duration = 0
    ∧ (initializeSession m sid now).sessionState.reconnectCount = 0
    ∧ (initializeSession m sid now).sessionState.lastHeartbeat = some now
    ∧ (initializeSession m sid now).metrics = initialMetrics
    ∧ (initializeSession m sid now).latencyMeasurements = []
    ∧ (initializeSession m sid now).heartbeatActive = true
    ∧ (initializeSession m sid now).sessionState.connectionQuality
        = m.sessionState.connectionQuality :=
  ⟨rfl, rfl, rfl, rfl, rfl, rfl, rfl, rfl, rfl, rfl, rfl⟩

/-- C7 counterexample: `initializeSession ""` installs the id `some ""`,
so initialize has been called and an id is present, yet `connectSession`
still fails with the not-initialized error because the guard is the
JavaScript truthiness test `!this.sessionState.id`, which also rejects the
empty string. -/
theorem connect_empty_id_cex :
    (initializeSession (mkManager cfg0) "" 0).sessionState.id = some ""
    ∧ (connectSession (initializeSession (mkManager cfg0) "" 0)).1
        = some SMError.notInitialized :=
  ⟨rfl, rfl⟩

/-- C7 amended: `connectSession` fails with the not-initialized error iff
the session id is falsy (null or the empty string); it leaves the state
unchanged in that case, and for a non-falsy id it succeeds, setting status
`connecting` then `connected` and `connectionQuality = good`. -/
theorem connect_falsy_id_behavior (m : Manager) :
    ((connectSession m).1 = some SMError.notInitialized
        ↔ idFalsy m.sessionState.id = true)
    ∧ (idFalsy m.sessionState.id = true → (connectSession m).2 = m)
    ∧ (idFalsy m.sessionState.id = false →
        (connectSession m).1 = none
        ∧ (connectSession m).2.sessionState.status = SessionStatus.connected
        ∧ (connectSession m).2.sessionState.connectionQuality = ConnectionQuality.good
        ∧ (connectSession m).2.statusLog
            = m.statusLog ++ [SessionStatus.connecting, SessionStatus.connected]) := by
  unfold connectSession
  by_cases h : idFalsy m.sessionState.id
  · simp [h]
  · simp [h, updateStatus, updateConnectionQuality]

/-- C7 witness: after `initializeSession "s1"` the id is non-falsy, and
`connectSession` succeeds with status visits `connecting`, `connected` and
quality `good`. -/
theorem connect_falsy_id_behavior_witness :
    idFalsy (initializeSession (mkManager cfg0) "s1" 0).sessionState.id = false
    ∧ ((connectSession (initializeSession (mkManager cfg0) "s1" 0)).1 = none
      ∧ (connectSession (initializeSession (mkManager cfg0) "s1" 0)).2.sessionState.status
          = SessionStatus.connected
      ∧ (connectSession (initializeSession (mkManager cfg0) "s1" 0)).2.sessionState.connectionQuality
          = ConnectionQuality.good
      ∧ (connectSession (initializeSession (mkManager cfg0) "s1" 0)).2.statusLog
          = (initializeSession (mkManager cfg0) "s1" 0).statusLog
            ++ [SessionStatus.connecting, SessionStatus.connected]) :=
  ⟨rfl, (connect_falsy_id_behavior _).2.2 rfl⟩

/-- C4 counterexample: initialize at time 0, disconnect at time 10, then
disconnect again at time 20: the second call overrides `endTime` from
`some 10` to `some 20`, so the two calls do not produce the same terminal
`SessionState`. -/
theorem disconnect_overrides_endTime_cex :
    (disconnectSession (initializeSession (mkManager cfg0) "s1" 0) 10).sessionState.endTime
        = some 10
    ∧ ((disconnectSession (disconnectSession (initializeSession (mkManager cfg0) "s1" 0) 10)
        20).sessionState.endTime = some 20)
    ∧ ((disconnectSession (disconnectSession (initializeSession (mkManager cfg0) "s1" 0) 10)
        20).sessionState.endTime
      ≠ (disconnectSession (initializeSession (mkManager cfg0) "s1" 0) 10).sessionState.endTime) := by
  refine ⟨rfl, rfl, ?_⟩
  have h1 : (disconnectSession (initializeSession (mkManager cfg0) "s1" 0) 10).sessionState.endTime
      = some 10 := rfl
  have h2 : ((disconnectSession (disconnectSession (initializeSession (mkManager cfg0) "s1" 0) 10)
      20).sessionState.endTime = some 20) := rfl
  rw [h1, h2]
  decide

/-- C4 amended: from a state whose session has not yet ended
(`endTime = none`), calling `disconnectSession` twice in a row yields
`status = disconnected` with no drift in the computed `duration` (the
second call recomputes it from the first call's `endTime`), and all
`SessionState` fields agree with the single-call result except `endTime`,
which the second call overwrites with its own timestamp — so the states
coincide exactly when the two calls carry the same timestamp. -/
theorem disconnect_twice_amended (m : Manager) (t1 t2 : Nat)
    (h : m.sessionState.endTime = none) :
    (disconnectSession (disconnectSession m t1) t2).sessionState.status
        = SessionStatus.disconnected
    ∧ (disconnectSession (disconnectSession m t1) t2).sessionState.duration
        = (disconnectSession m t1).sessionState.duration
    ∧ (disconnectSession (disconnectSession m t1) t2).sessionState.endTime = some t2
    ∧ (disconnectSession (disconnectSession m t1) t2).sessionState.id
        = (disconnectSession m t1).sessionState.id
    ∧ (disconnectSession (disconnectSession m t1) t2).sessionState.startTime
        = (disconnectSession m t1).sessionState.startTime
    ∧ (t2 = t1 →
        (disconnectSession (disconnectSession m t1) t2).sessionState
          = (disconnectSession m t1).sessionState) := by
  have hdur :
      (disconnectSession (disconnectSession m t1) t2).sessionState.duration
        = (disconnectSession m t1).sessionState.duration := by
    simp only [disconnectSession, updateStatus, stopHeartbeat, stopConnectionMonitoring,
      calculateDuration, h]
    cases m.sessionState.startTime <;> simp
  refine ⟨rfl, hdur, rfl, rfl, rfl, fun ht => ?_⟩
  subst ht
  simp only [disconnectSession, updateStatus, stopHeartbeat, stopConnectionMonitoring,
    calculateDuration, h]
  cases m.sessionState.startTime <;> simp

/-- C4 witness: for two disconnect calls carrying the same timestamp the
terminal `SessionState`s coincide. -/
theorem disconnect_twice_amended_witness :
    (initializeSession (mkManager cfg0) "s1" 0).sessionState.endTime = none
    ∧ ((disconnectSession (disconnectSession (initializeSession (mkManager cfg0) "s1" 0) 10)
        10).sessionState
      = (disconnectSession (initializeSession (mkManager cfg0) "s1" 0) 10).sessionState) :=
  ⟨rfl, (disconnect_twice_amended (initializeSession (mkManager cfg0) "s1" 0) 10 10
    rfl).2.2.2.2.2 rfl⟩

theorem updateLatency_measurements (m : Manager) (x : ℚ) :
    (updateLatency m x).latencyMeasurements =
      if 100 < (m.latencyMeasurements ++ [x]).length
      then (m.latencyMeasurements ++ [x]).tail
      else m.latencyMeasurements ++ [x] := by
  unfold updateLatency updateConnectionQualityFromMetrics updateConnectionQuality
  dsimp only
  rw [apply_ite Manager.latencyMeasurements]

theorem updateLatency_average (m : Manager) (x : ℚ) :
    (updateLatency m x).metrics.averageLatency =
      ((updateLatency m x).latencyMeasurements).sum
        / (((updateLatency m x).latencyMeasurements).length : ℚ) := by
  unfold updateLatency updateConnectionQualityFromMetrics updateConnectionQuality
  dsimp only
  rw [List.sum_eq_foldl]

theorem latencyWindow_step (p : List ℚ) (x : ℚ) :
    (if 100 < (latencyWindow p ++ [x]).length
     then (latencyWindow p ++ [x]).tail
     else latencyWindow p ++ [x]) = latencyWindow (p ++ [x]) := by
  unfold latencyWindow
  have hlen2 : (p ++ [x]).length = p.length + 1 := by simp
  rw [hlen2]
  rcases le_or_lt 100 p.length with hp | hp
  · have hlen : (List.drop (p.length - 100) p).length = 100 := by
      rw [List.length_drop]
      omega
    have hcond : 100 < (List.drop (p.length - 100) p ++ [x]).length := by
      rw [List.length_append, hlen]
      norm_num
    rw [if_pos hcond, List.tail_append]
    have hne : (List.drop (p.length - 100) p).isEmpty = false := by
      rw [List.isEmpty_eq_false]
      intro hnil
      rw [hnil] at hlen
      simp at hlen
    rw [if_neg (by simp [hne]), List.tail_drop]
    have hle : p.length + 1 - 100 ≤ p.length := by omega
    rw [List.drop_append_of_le_length hle]
    have heq : p.length - 100 + 1 = p.length + 1 - 100 := by omega
    rw [heq]
  · have h0 : p.length - 100 = 0 := by omega
    rw [h0, List.drop_zero]
    have hcond : ¬ 100 < (p ++ [x]).length := by
      rw [hlen2]
      omega
    rw [if_neg hcond]
    have h0' : p.length + 1 - 100 = 0 := by omega
    rw [h0', List.drop_zero]

theorem foldl_updateLatency_measurements (ls : List ℚ) (m : Manager) (p : List ℚ)
    (hm : m.latencyMeasurements = latencyWindow p) :
    (ls.foldl updateLatency m).latencyMeasurements = latencyWindow (p ++ ls) := by
  induction ls generalizing m p with
  | nil => simpa using hm
  | cons x ls ih =>
      rw [List.foldl_cons]
      have hx : (updateLatency m x).latencyMeasurements = latencyWindow (p ++ [x]) := by
        rw [updateLatency_measurements, hm, latencyWindow_step]
      have := ih (updateLatency m x) (p ++ [x]) hx
      simpa using this

/-- C1: for any non-empty sequence of `updateLatency` calls starting from
an empty latency window (no intervening resets), the stored window is the
most recent `min N 100` samples with the oldest dropped first, and after
the last call `averageLatency` is exactly the arithmetic mean of that
window. -/
theorem averageLatency_window_mean (m : Manager) (hm : m.latencyMeasurements = [])
    (ls : List ℚ) (hne : ls ≠ []) :
    (ls.foldl updateLatency m).latencyMeasurements = latencyWindow ls
    ∧ (ls.foldl updateLatency m).metrics.averageLatency
        = (latencyWindow ls).sum / ((latencyWindow ls).length : ℚ)
    ∧ (latencyWindow ls).length = min ls.length 100 := by
  have hm' : m.latencyMeasurements = latencyWindow [] := by
    simpa [latencyWindow] using hm
  have hLm : (ls.foldl updateLatency m).latencyMeasurements = latencyWindow ls := by
    simpa using foldl_updateLatency_measurements ls m [] hm'
  refine ⟨hLm, ?_, ?_⟩
  · rcases List.eq_nil_or_concat ls with rfl | ⟨L, b, rfl⟩
    · exact absurd rfl hne
    · rw [List.concat_eq_append] at hLm ⊢
      rw [List.foldl_append, List.foldl_cons, List.foldl_nil]
      rw [updateLatency_average]
      have hmeas : (updateLatency (List.foldl updateLatency m L) b).latencyMeasurements
          = latencyWindow (L ++ [b]) := by
        rw [List.foldl_append, List.foldl_cons, List.foldl_nil] at hLm
        exact hLm
      rw [hmeas]
  · rw [latencyWindow, List.length_drop]
    omega

/-- C1 witness: a single `updateLatency 50` call on a fresh manager
realizes the window-mean equation. -/
theorem averageLatency_window_mean_witness :
    (mkManager cfg0).latencyMeasurements = []
    ∧ ([(50 : ℚ)] ≠ ([] : List ℚ))
    ∧ ([(50 : ℚ)].foldl updateLatency (mkManager cfg0)).metrics.averageLatency
        = (latencyWindow [(50 : ℚ)]).sum / ((latencyWindow [(50 : ℚ)]).length : ℚ) :=
  ⟨rfl, by simp,
    (averageLatency_window_mean (mkManager cfg0) rfl [(50 : ℚ)] (by simp)).2.1⟩

end SessionManager
